import Mathlib

/-!
# Verification of the generic repository / envelope boilerplate

Shallow embedding of the repository's core components:

* `src/repositories/base_repository.py` (blocking variant, `BaseRepository`)
* `src/repositories/async_base_repository.py` (non-blocking variant,
  `AsyncBaseRepository`)
* `src/exceptions/common.py` (`ServiceException` and its factory methods)
* `src/schemas/common.py` (success / error envelopes)
* `src/main.py` (global exception handlers, app assembly)
* `src/api/routes/health.py`, `src/api/router.py` (health endpoint)
* `src/util/time_util.py` (`now_kst`)

The persistence engine (a SQLAlchemy `Session` over one mapped model) is
modelled as a list of rows in the engine's default order, together with the
set of mapped column names of the model.  Column values are modelled as
integers; the entity id is a natural number (standing for the UUID).
-/

namespace Boiler

/-- A persisted row.  `id` models the primary-key UUID; `attrs` the remaining
mapped column values (all values modelled as integers). -/
structure Entity where
  id : Nat
  attrs : List (String × Int)
deriving DecidableEq, Repr

/-- Value of mapped attribute `c` on an entity: the primary key for `"id"`,
otherwise the first binding of `c` among the remaining columns. -/
def Entity.fieldVal (e : Entity) (c : String) : Option Int :=
  if c = "id" then some (Int.ofNat e.id) else e.attrs.lookup c

/-- The mapped model class, as seen by `getattr(self.model, column, None)` and
`filter_by`: the set of mapped attribute names (always containing `"id"`). -/
structure DbModel where
  columns : List String
deriving DecidableEq, Repr

/-- Embeds `getattr(self.model, column, None)` succeeds exactly on mapped columns. -/
def DbModel.hasColumn (m : DbModel) (c : String) : Bool :=
  c = "id" || m.columns.contains c

/-- The state a repository call sees: the unit of work (SQLAlchemy session)
over one mapped model.  `rows` lists the visible rows in the persistence
engine's default order. -/
structure DbSession where
  model : DbModel
  rows : List Entity
deriving DecidableEq, Repr

/-- Embeds `session.add(obj); session.flush()`: the staged object becomes visible in
the unit of work — an insert when its identity is new, otherwise the row with
that identity now reads as `obj`. -/
def DbSession.addFlush (s : DbSession) (obj : Entity) : DbSession :=
  if s.rows.any (fun r => r.id = obj.id) then
    { s with rows := s.rows.map (fun r => if r.id = obj.id then obj else r) }
  else
    { s with rows := s.rows ++ [obj] }

/-- Embeds `session.delete(obj); session.flush()`: rows with the object's identity are
removed from the unit of work. -/
def DbSession.deleteFlush (s : DbSession) (obj : Entity) : DbSession :=
  { s with rows := s.rows.filter (fun r => ¬ r.id = obj.id) }

/-- One `**kwargs` criteria mapping, as a list of field/value pairs. -/
abbrev Criteria := List (String × Int)

/-- A row matches a criteria mapping when every key/value pair matches
exactly (conjunction). -/
def matchesCriteria (e : Entity) (kw : Criteria) : Bool :=
  kw.all (fun p => e.fieldVal p.1 = some p.2)

/-- Embeds `query.filter_by(**kwargs)` raises `InvalidRequestError` on a key that is
not a mapped attribute; otherwise it keeps exactly the matching rows. -/
def applyFilterBy (s : DbSession) (kw : Criteria) : Except String (List Entity) :=
  if kw.all (fun p => s.model.hasColumn p.1) then
    .ok (s.rows.filter (fun e => matchesCriteria e kw))
  else
    .error "InvalidRequestError"

/-- A raw mapping handed to `bulk_insert`; `insert(self.model)` executes it as
one row, the primary key taken from the mapping's `"id"` entry. -/
def rowOfMapping (m : List (String × Int)) : Entity :=
  { id := ((m.lookup "id").getD 0).toNat
    attrs := m.filter (fun p => ¬ p.1 = "id") }

end Boiler

namespace Boiler.BaseRepository

/-- Embeds `BaseRepository.get_by_id` (src/repositories/base_repository.py:15-16):
`self.db.query(self.model).filter(self.model.id == id).first()`. -/
def get_by_id (s : DbSession) (id : Nat) : Option Entity :=
  (s.rows.filter (fun r => r.id = id)).head?

/-- Embeds `BaseRepository.get_all` (src/repositories/base_repository.py:18-19):
`self.db.query(self.model).offset(skip).limit(limit).all()`. -/
def get_all (s : DbSession) (skip : Nat) (limit : Nat) : List Entity :=
  ((s.rows.drop skip).take limit)

/-- Embeds `BaseRepository.create` (src/repositories/base_repository.py:21-24):
`self.db.add(obj); self.db.flush(); return obj`. -/
def create (s : DbSession) (obj : Entity) : Entity × DbSession :=
  (obj, s.addFlush obj)

/-- Embeds `BaseRepository.update` (src/repositories/base_repository.py:26-29):
`self.db.add(obj); self.db.flush(); return obj`. -/
def update (s : DbSession) (obj : Entity) : Entity × DbSession :=
  (obj, s.addFlush obj)

/-- Embeds `BaseRepository.delete` (src/repositories/base_repository.py:31-33):
`self.db.delete(obj); self.db.flush()`. -/
def delete (s : DbSession) (obj : Entity) : DbSession :=
  s.deleteFlush obj

/-- Embeds `BaseRepository.bulk_insert` (src/repositories/base_repository.py:35-37):
`self.db.execute(insert(self.model), mappings); self.db.flush()`. -/
def bulk_insert (s : DbSession) (mappings : List (List (String × Int))) : DbSession :=
  { s with rows := s.rows ++ mappings.map rowOfMapping }

/-- Embeds `BaseRepository.filter_by` (src/repositories/base_repository.py:39-40):
`self.db.query(self.model).filter_by(**kwargs).all()`. -/
def filter_by (s : DbSession) (kw : Criteria) : Except String (List Entity) :=
  applyFilterBy s kw

/-- Embeds `BaseRepository.filter_by_one` (src/repositories/base_repository.py:42-43):
`self.db.query(self.model).filter_by(**kwargs).first()`. -/
def filter_by_one (s : DbSession) (kw : Criteria) : Except String (Option Entity) :=
  (applyFilterBy s kw).map List.head?

/-- Embeds `BaseRepository.count` (src/repositories/base_repository.py:45-49):
filter only when `kwargs` is non-empty, then `query.count()`. -/
def count (s : DbSession) (kw : Criteria) : Except String Nat :=
  if kw.isEmpty then
    .ok s.rows.length
  else
    (applyFilterBy s kw).map List.length

/-- Embeds `BaseRepository.order_by` (src/repositories/base_repository.py:51-60):
`getattr(self.model, column, None)`; on a missing column return `[]`,
otherwise sort all rows by that column, descending when
`direction == "desc"`, ascending otherwise. -/
def order_by (s : DbSession) (column : String) (direction : String) : List Entity :=
  if ¬ s.model.hasColumn column then
    []
  else if direction = "desc" then
    s.rows.mergeSort (fun a b => ((b.fieldVal column).getD 0) ≤ ((a.fieldVal column).getD 0))
  else
    s.rows.mergeSort (fun a b => ((a.fieldVal column).getD 0) ≤ ((b.fieldVal column).getD 0))

end Boiler.BaseRepository

namespace Boiler.AsyncBaseRepository

/-- Embeds `AsyncBaseRepository.get_by_id` (src/repositories/async_base_repository.py:15-19):
`select(self.model).filter(self.model.id == id)`, then `scalars().first()`. -/
def get_by_id (s : DbSession) (id : Nat) : Option Entity :=
  (s.rows.filter (fun r => r.id = id)).head?

/-- Embeds `AsyncBaseRepository.get_all` (src/repositories/async_base_repository.py:21-25):
`select(self.model).offset(skip).limit(limit)`, then `list(scalars().all())`. -/
def get_all (s : DbSession) (skip : Nat) (limit : Nat) : List Entity :=
  ((s.rows.drop skip).take limit)

/-- Embeds `AsyncBaseRepository.create` (src/repositories/async_base_repository.py:27-30):
`self.db.add(obj); await self.db.flush(); return obj`. -/
def create (s : DbSession) (obj : Entity) : Entity × DbSession :=
  (obj, s.addFlush obj)

/-- Embeds `AsyncBaseRepository.update` (src/repositories/async_base_repository.py:32-35):
`self.db.add(obj); await self.db.flush(); return obj`. -/
def update (s : DbSession) (obj : Entity) : Entity × DbSession :=
  (obj, s.addFlush obj)

/-- Embeds `AsyncBaseRepository.delete` (src/repositories/async_base_repository.py:37-39):
`await self.db.delete(obj); await self.db.flush()`. -/
def delete (s : DbSession) (obj : Entity) : DbSession :=
  s.deleteFlush obj

/-- Embeds `AsyncBaseRepository.bulk_insert` (src/repositories/async_base_repository.py:41-43):
`await self.db.execute(insert(self.model), mappings); await self.db.flush()`. -/
def bulk_insert (s : DbSession) (mappings : List (List (String × Int))) : DbSession :=
  { s with rows := s.rows ++ mappings.map rowOfMapping }

/-- Embeds `AsyncBaseRepository.filter_by` (src/repositories/async_base_repository.py:45-49):
`select(self.model).filter_by(**kwargs)`, then `list(scalars().all())`. -/
def filter_by (s : DbSession) (kw : Criteria) : Except String (List Entity) :=
  applyFilterBy s kw

/-- Embeds `AsyncBaseRepository.filter_by_one` (src/repositories/async_base_repository.py:51-55):
`select(self.model).filter_by(**kwargs)`, then `scalars().first()`. -/
def filter_by_one (s : DbSession) (kw : Criteria) : Except String (Option Entity) :=
  (applyFilterBy s kw).map List.head?

/-- Embeds `AsyncBaseRepository.count` (src/repositories/async_base_repository.py:57-62):
`select(func.count()).select_from(self.model)`, filtered only when `kwargs` is
non-empty, then `result.scalar()`. -/
def count (s : DbSession) (kw : Criteria) : Except String Nat :=
  if kw.isEmpty then
    .ok s.rows.length
  else
    (applyFilterBy s kw).map List.length

/-- Embeds `AsyncBaseRepository.order_by` (src/repositories/async_base_repository.py:64-73):
`getattr(self.model, column, None)`; on a missing column return `[]`, otherwise
`select(self.model).order_by(desc(col) if direction == "desc" else asc(col))`. -/
def order_by (s : DbSession) (column : String) (direction : String) : List Entity :=
  if ¬ s.model.hasColumn column then
    []
  else if direction = "desc" then
    s.rows.mergeSort (fun a b => ((b.fieldVal column).getD 0) ≤ ((a.fieldVal column).getD 0))
  else
    s.rows.mergeSort (fun a b => ((a.fieldVal column).getD 0) ≤ ((b.fieldVal column).getD 0))

end Boiler.AsyncBaseRepository

namespace Boiler

/-- A timezone-aware datetime: an instant plus a fixed UTC offset in minutes
(`datetime` with `tzinfo`).  The instant is left abstract (epoch seconds). -/
structure KstDateTime where
  instant : Int
  offsetMinutes : Int
deriving DecidableEq, Repr

/-- Embeds `util/time_util.py`: `KST = timezone(timedelta(hours=9))`. -/
def KST_offsetMinutes : Int := 9 * 60

/-- Embeds `now_kst` (src/util/time_util.py:6-7): `datetime.now(KST)` — the current
instant (passed in explicitly) tagged with the fixed UTC+9 offset. -/
def now_kst (nowInstant : Int) : KstDateTime :=
  { instant := nowInstant, offsetMinutes := KST_offsetMinutes }

/-- Modelled from the spec: `exceptions/error_codes.py` (the `ErrorCode` enum)
is imported by `src/exceptions/common.py` and `src/main.py` but is not among
the source files.  The spec's error taxonomy (§4.2, §7) names the classes
not-found, bad-request, unauthorized, forbidden, conflict and internal; the
members below are the ones referenced by `ServiceException`'s factory
methods. -/
inductive ErrorCode
  | NOT_FOUND
  | BAD_REQUEST
  | UNAUTHORIZED
  | FORBIDDEN
  | ALREADY_EXISTS
  | INTERNAL_SERVER_ERROR
deriving DecidableEq, Repr

/-- Modelled from the spec: the `.value` string of each `ErrorCode` member
(a `str`-valued enum, since the Error Envelope's `errorCode` field is a
string); taken to be the member's name. -/
def ErrorCode.value : ErrorCode → String
  | .NOT_FOUND => "NOT_FOUND"
  | .BAD_REQUEST => "BAD_REQUEST"
  | .UNAUTHORIZED => "UNAUTHORIZED"
  | .FORBIDDEN => "FORBIDDEN"
  | .ALREADY_EXISTS => "ALREADY_EXISTS"
  | .INTERNAL_SERVER_ERROR => "INTERNAL_SERVER_ERROR"

/-- Python `m or d` for an optional string `m` (`None` and `""` are falsy). -/
def pyStrOr (m : Option String) (d : String) : String :=
  match m with
  | some s => if s = "" then d else s
  | none => d

/-- A `ServiceException` instance after `__init__` ran: the stored fields
(src/exceptions/common.py:14-16).  The `HTTPException` base's `detail` dict
(line 19) is determined by `error_code` and `message` and is not read by any
handler in `src/main.py`, so it is not carried separately. -/
structure ServiceException where
  error_code : ErrorCode
  message : String
  status_code : Nat
  data : Option (List (String × String))
deriving DecidableEq, Repr

/-- Embeds `ServiceException.__init__` (src/exceptions/common.py:7-20):
`self.message = message or error_code.value`; the other arguments are stored
as given.  `message = None` is `none`, an explicit empty string is
`some ""`. -/
def ServiceException.init (error_code : ErrorCode) (message : Option String)
    (status_code : Nat) (data : Option (List (String × String))) : ServiceException :=
  { error_code := error_code
    message := pyStrOr message error_code.value
    status_code := status_code
    data := data }

/-- Declared default of the `status_code` parameter of
`ServiceException.__init__` (src/exceptions/common.py:11): `400`. -/
def ServiceException.defaultStatusCode : Nat := 400

/-- Declared default of the `data` parameter of `ServiceException.__init__`
(src/exceptions/common.py:12): `None`. -/
def ServiceException.defaultData : Option (List (String × String)) := none

/-- Embeds `ServiceException.not_found` (src/exceptions/common.py:24-28). -/
def ServiceException.not_found (message : String) : ServiceException :=
  ServiceException.init ErrorCode.NOT_FOUND (some message) 404 ServiceException.defaultData

/-- Embeds `ServiceException.bad_request` (src/exceptions/common.py:30-34). -/
def ServiceException.bad_request (message : String) : ServiceException :=
  ServiceException.init ErrorCode.BAD_REQUEST (some message) 400 ServiceException.defaultData

/-- Embeds `ServiceException.unauthorized` (src/exceptions/common.py:36-40). -/
def ServiceException.unauthorized (message : String) : ServiceException :=
  ServiceException.init ErrorCode.UNAUTHORIZED (some message) 401 ServiceException.defaultData

/-- Embeds `ServiceException.forbidden` (src/exceptions/common.py:42-46). -/
def ServiceException.forbidden (message : String) : ServiceException :=
  ServiceException.init ErrorCode.FORBIDDEN (some message) 403 ServiceException.defaultData

/-- Embeds `ServiceException.conflict` (src/exceptions/common.py:48-52). -/
def ServiceException.conflict (message : String) : ServiceException :=
  ServiceException.init ErrorCode.ALREADY_EXISTS (some message) 409 ServiceException.defaultData

/-- Embeds `ServiceException.internal_server_error` (src/exceptions/common.py:54-60). -/
def ServiceException.internal_server_error (message : String) : ServiceException :=
  ServiceException.init ErrorCode.INTERNAL_SERVER_ERROR (some message) 500 ServiceException.defaultData

/-- Any Python exception that is not a `ServiceException` (an unclassified
fault), reduced to the detail a handler could leak: its message. -/
structure PyExc where
  message : String
deriving DecidableEq, Repr

/-- Embeds `SuccessResponse` (src/schemas/common.py:15-18) after JSON dump:
`result` defaults to `Result.SUCCESS` (the string `"SUCCESS"`). -/
structure SuccessResponse where
  result : String
  data : Option (List (String × String))
  message : Option String
deriving DecidableEq, Repr

/-- Embeds `BasicErrorResponse` (src/schemas/common.py:21-28) after JSON dump:
`result` defaults to `Result.FAIL` (the string `"FAIL"`). -/
structure BasicErrorResponse where
  result : String
  errorCode : String
  message : String
  data : Option (List (String × String))
  timestamp : Option KstDateTime
  request_id : Option String
  path : Option String
deriving DecidableEq, Repr

/-- An inbound HTTP request, reduced to what this pipeline reads: the
optional inbound correlation header and the URL path. -/
structure Request where
  requestIdHeader : Option String
  path : String
deriving DecidableEq, Repr

/-- A `Request` together with its request-scoped state after the middleware
ran: `getattr(request.state, "request_id", None)`. -/
structure StatefulRequest where
  req : Request
  state_request_id : Option String
deriving DecidableEq, Repr

/-- A JSON response: status code, JSON body (one of the two envelope
shapes), response headers. -/
inductive ResponseBody
  | success (b : SuccessResponse)
  | error (b : BasicErrorResponse)
deriving DecidableEq, Repr

structure Response where
  status_code : Nat
  body : ResponseBody
  headers : List (String × String)
deriving DecidableEq, Repr

/-- Modelled from the spec: a fresh globally-unique correlation identifier
(§4.3), generated from a uniqueness seed; never the empty string. -/
def freshRequestId (seed : Nat) : String :=
  "req-" ++ toString seed

/-- Modelled from the spec: `middleware/request_id.py` (`RequestIDMiddleware`)
is registered in `src/main.py:37` but is not among the source files.  Per
§4.3: a non-empty inbound correlation header is reused, otherwise a new
globally-unique identifier is generated (an empty header value carries no
identifier). -/
def RequestIDMiddleware.resolveId (header : Option String) (seed : Nat) : String :=
  match header with
  | some h => if h = "" then freshRequestId seed else h
  | none => freshRequestId seed

/-- Embeds `service_exception_handler` (src/main.py:51-70): respond with the
exception's status and a `BasicErrorResponse` built from the exception's
fields, `now_kst()`, the request-scoped request id and the request URL
path. -/
def service_exception_handler (request : StatefulRequest) (exc : ServiceException)
    (nowInstant : Int) : Response :=
  { status_code := exc.status_code
    body := .error
      { result := "FAIL"
        errorCode := exc.error_code.value
        message := exc.message
        data := exc.data
        timestamp := some (now_kst nowInstant)
        request_id := request.state_request_id
        path := some request.req.path }
    headers := [] }

/-- Embeds `global_exception_handler` (src/main.py:73-88): respond with status 500
and a `BasicErrorResponse` with the fixed code `"INTERNAL_SERVER_ERROR"` and
fixed Korean message; the caught exception is only logged. -/
def global_exception_handler (request : StatefulRequest) (_exc : PyExc)
    (nowInstant : Int) : Response :=
  { status_code := 500
    body := .error
      { result := "FAIL"
        errorCode := "INTERNAL_SERVER_ERROR"
        message := "서버 내부 오류가 발생했습니다"
        data := none
        timestamp := some (now_kst nowInstant)
        request_id := request.state_request_id
        path := some request.req.path }
    headers := [] }

/-- Embeds `health_check` (src/api/routes/health.py:8-10): a `SuccessResponse` with
`data={"status": "healthy"}` and the fixed Korean message; `result` keeps its
default `"SUCCESS"`. -/
def health_check : SuccessResponse :=
  { result := "SUCCESS"
    data := some [("status", "healthy")]
    message := some "서버가 정상 작동 중입니다" }

/-- Route prefix of `api_router` (src/api/router.py): `"/api/v1"`. -/
def apiPrefix : String := "/api/v1"

/-- Route prefix of the health router (src/api/routes/health.py:5):
`"/health"`; the route itself is registered at `""`. -/
def healthPrefix : String := "/health"

/-- Full path of the health endpoint, assembled as the routers assemble it. -/
def healthRoutePath : String := apiPrefix ++ healthPrefix ++ ""

/-- What a request handler did: returned a value (with the route's response
status), raised a `ServiceException`, or raised an unclassified fault. -/
inductive HandlerOutcome
  | ok (status : Nat) (body : SuccessResponse)
  | svc (e : ServiceException)
  | unclassified (e : PyExc)
deriving DecidableEq, Repr

/-- The app pipeline of `src/main.py`: the request-ID middleware resolves the
correlation id into request-scoped state, the handler outcome is converted to
a response (success as-is; `ServiceException` by `service_exception_handler`,
src/main.py:51; anything else by `global_exception_handler`, src/main.py:73),
and the middleware echoes the id in the `X-Request-ID` response header
(middleware contract modelled from the spec, §4.3). -/
def appHandle (r : Request) (outcome : HandlerOutcome) (seed : Nat)
    (nowInstant : Int) : Response :=
  let rid := RequestIDMiddleware.resolveId r.requestIdHeader seed
  let sreq : StatefulRequest := { req := r, state_request_id := some rid }
  let resp : Response :=
    match outcome with
    | .ok st b => { status_code := st, body := .success b, headers := [] }
    | .svc e => service_exception_handler sreq e nowInstant
    | .unclassified e => global_exception_handler sreq e nowInstant
  { resp with headers := ("X-Request-ID", rid) :: resp.headers }

/-- Routing of `GET /api/v1/health` (src/api/router.py, src/api/routes/
health.py): the only registered route; it never raises, returns
`health_check` with the default status 200. -/
def routeGet (path : String) : Option HandlerOutcome :=
  if path = healthRoutePath then some (.ok 200 health_check) else none

end Boiler

namespace Boiler

/-! ## Theorems -/

/-- C9: `update` performs exactly the same operations as `create` (stage the
object and flush) and returns the same result, in both the blocking and the
non-blocking repository variant; in particular `update` performs no
existence check, so updating a never-created entity behaves identically to
`create`. -/
theorem update_behaves_as_create :
    (∀ (s : DbSession) (obj : Entity),
      BaseRepository.update s obj = BaseRepository.create s obj) ∧
    (∀ (s : DbSession) (obj : Entity),
      AsyncBaseRepository.update s obj = AsyncBaseRepository.create s obj) :=
  ⟨fun _ _ => rfl, fun _ _ => rfl⟩

/-- C4: every repository operation returns the same result and effects the
same state change in the blocking variant (`BaseRepository`) and the
non-blocking variant (`AsyncBaseRepository`) on the same persistence
state — the two variants are behaviorally identical in data contract. -/
theorem sync_async_behaviorally_identical :
    (∀ (s : DbSession) (id : Nat),
      BaseRepository.get_by_id s id = AsyncBaseRepository.get_by_id s id) ∧
    (∀ (s : DbSession) (skip limit : Nat),
      BaseRepository.get_all s skip limit = AsyncBaseRepository.get_all s skip limit) ∧
    (∀ (s : DbSession) (obj : Entity),
      BaseRepository.create s obj = AsyncBaseRepository.create s obj) ∧
    (∀ (s : DbSession) (obj : Entity),
      BaseRepository.update s obj = AsyncBaseRepository.update s obj) ∧
    (∀ (s : DbSession) (obj : Entity),
      BaseRepository.delete s obj = AsyncBaseRepository.delete s obj) ∧
    (∀ (s : DbSession) (mappings : List (List (String × Int))),
      BaseRepository.bulk_insert s mappings = AsyncBaseRepository.bulk_insert s mappings) ∧
    (∀ (s : DbSession) (kw : Criteria),
      BaseRepository.filter_by s kw = AsyncBaseRepository.filter_by s kw) ∧
    (∀ (s : DbSession) (kw : Criteria),
      BaseRepository.filter_by_one s kw = AsyncBaseRepository.filter_by_one s kw) ∧
    (∀ (s : DbSession) (kw : Criteria),
      BaseRepository.count s kw = AsyncBaseRepository.count s kw) ∧
    (∀ (s : DbSession) (column direction : String),
      BaseRepository.order_by s column direction = AsyncBaseRepository.order_by s column direction) :=
  ⟨fun _ _ => rfl, fun _ _ _ => rfl, fun _ _ => rfl, fun _ _ => rfl, fun _ _ => rfl,
   fun _ _ => rfl, fun _ _ => rfl, fun _ _ => rfl, fun _ _ => rfl, fun _ _ _ => rfl⟩

/-- C10: constructing a `ServiceException` with message `None` or with an
empty-string message yields an exception whose message equals the error
code's string value; constructing one with the declared default status code
yields HTTP status 400; a non-empty explicit message is kept verbatim. -/
theorem serviceException_init_message_and_status (c : ErrorCode) (st : Nat)
    (d : Option (List (String × String))) (mo : Option String) (m : String)
    (hm : m ≠ "") :
    (ServiceException.init c none st d).message = c.value ∧
    (ServiceException.init c (some "") st d).message = c.value ∧
    (ServiceException.init c (some m) st d).message = m ∧
    (ServiceException.init c mo ServiceException.defaultStatusCode d).status_code = 400 := by
  refine ⟨rfl, rfl, ?_, rfl⟩
  simp [ServiceException.init, pyStrOr, hm]

/-- Witness for C10 at concrete inputs. -/
theorem serviceException_init_message_and_status_witness :
    ("no row" : String) ≠ "" ∧
    ((ServiceException.init ErrorCode.NOT_FOUND none 418 none).message
        = ErrorCode.NOT_FOUND.value ∧
     (ServiceException.init ErrorCode.NOT_FOUND (some "") 418 none).message
        = ErrorCode.NOT_FOUND.value ∧
     (ServiceException.init ErrorCode.NOT_FOUND (some "no row") 418 none).message
        = "no row" ∧
     (ServiceException.init ErrorCode.NOT_FOUND (some "no row")
        ServiceException.defaultStatusCode none).status_code = 400) :=
  ⟨by decide,
   serviceException_init_message_and_status ErrorCode.NOT_FOUND 418 none
     (some "no row") "no row" (by decide)⟩

/-- C2: an unclassified fault raised inside a handler always yields HTTP 500
with the fixed generic error code and fixed message, and the response is
independent of the fault — for any two unclassified faults (in particular,
with different messages) the response is identical, so the fault's message
never appears in the response body. -/
theorem unclassified_fault_response (r : Request) (seed : Nat) (now : Int)
    (e1 e2 : PyExc) :
    appHandle r (.unclassified e1) seed now = appHandle r (.unclassified e2) seed now ∧
    (appHandle r (.unclassified e1) seed now).status_code = 500 ∧
    (appHandle r (.unclassified e1) seed now).body = .error
      { result := "FAIL"
        errorCode := "INTERNAL_SERVER_ERROR"
        message := "서버 내부 오류가 발생했습니다"
        data := none
        timestamp := some (now_kst now)
        request_id := some (RequestIDMiddleware.resolveId r.requestIdHeader seed)
        path := some r.path } :=
  ⟨rfl, rfl, rfl⟩

end Boiler

namespace Boiler

/-- A freshly generated correlation identifier is never empty. -/
theorem freshRequestId_ne_empty (seed : Nat) : freshRequestId seed ≠ "" := by
  intro h
  have hl := congrArg String.length h
  rw [freshRequestId, String.length_append] at hl
  have h4 : ("req-" : String).length = 4 := rfl
  have h0 : ("" : String).length = 0 := rfl
  rw [h4, h0] at hl
  omega

/-- The resolved correlation identifier is never empty. -/
theorem resolveId_ne_empty (header : Option String) (seed : Nat) :
    RequestIDMiddleware.resolveId header seed ≠ "" := by
  cases header with
  | none => exact freshRequestId_ne_empty seed
  | some h =>
    by_cases hh : h = ""
    · simpa [RequestIDMiddleware.resolveId, hh] using freshRequestId_ne_empty seed
    · simp [RequestIDMiddleware.resolveId, hh]

/-- C1: a `ServiceException` raised by a handler yields a response with the
exception's declared HTTP status whose body is the Error Envelope carrying
the exception's error code, message and data, plus the `now_kst` timestamp,
the request's correlation id and the request URL path; in particular a
not-found `ServiceException` yields a 404 response whose body `errorCode`
matches the declared code (`NOT_FOUND`) and whose `request_id` matches the
request's (non-empty) correlation header. -/
theorem service_exception_response (r : Request) (seed : Nat) (now : Int)
    (e : ServiceException) (msg h : String)
    (hh : r.requestIdHeader = some h) (hne : h ≠ "") :
    (appHandle r (.svc e) seed now).status_code = e.status_code ∧
    (appHandle r (.svc e) seed now).body = .error
      { result := "FAIL"
        errorCode := e.error_code.value
        message := e.message
        data := e.data
        timestamp := some (now_kst now)
        request_id := some h
        path := some r.path } ∧
    (appHandle r (.svc (ServiceException.not_found msg)) seed now).status_code = 404 ∧
    ∃ b, (appHandle r (.svc (ServiceException.not_found msg)) seed now).body = .error b ∧
      b.errorCode = (ServiceException.not_found msg).error_code.value ∧
      b.request_id = some h := by
  have hr : RequestIDMiddleware.resolveId r.requestIdHeader seed = h := by
    simp [RequestIDMiddleware.resolveId, hh, hne]
  refine ⟨rfl, ?_, rfl, ?_⟩
  · simp [appHandle, service_exception_handler, hr]
  · exact ⟨{ result := "FAIL"
             errorCode := (ServiceException.not_found msg).error_code.value
             message := (ServiceException.not_found msg).message
             data := (ServiceException.not_found msg).data
             timestamp := some (now_kst now)
             request_id := some h
             path := some r.path },
      by simp [appHandle, service_exception_handler, hr], rfl, rfl⟩

/-- Witness for C1 at concrete inputs. -/
theorem service_exception_response_witness :
    (Request.mk (some "abc") "/api/v1/items").requestIdHeader = some "abc" ∧
    ("abc" : String) ≠ "" ∧
    ((appHandle (Request.mk (some "abc") "/api/v1/items")
        (.svc (ServiceException.init ErrorCode.FORBIDDEN none 403 none)) 7 0).status_code
      = (ServiceException.init ErrorCode.FORBIDDEN none 403 none).status_code ∧
     (appHandle (Request.mk (some "abc") "/api/v1/items")
        (.svc (ServiceException.init ErrorCode.FORBIDDEN none 403 none)) 7 0).body = .error
      { result := "FAIL"
        errorCode := (ServiceException.init ErrorCode.FORBIDDEN none 403 none).error_code.value
        message := (ServiceException.init ErrorCode.FORBIDDEN none 403 none).message
        data := (ServiceException.init ErrorCode.FORBIDDEN none 403 none).data
        timestamp := some (now_kst 0)
        request_id := some "abc"
        path := some (Request.mk (some "abc") "/api/v1/items").path } ∧
     (appHandle (Request.mk (some "abc") "/api/v1/items")
        (.svc (ServiceException.not_found "no such item")) 7 0).status_code = 404 ∧
     ∃ b, (appHandle (Request.mk (some "abc") "/api/v1/items")
        (.svc (ServiceException.not_found "no such item")) 7 0).body = .error b ∧
      b.errorCode = (ServiceException.not_found "no such item").error_code.value ∧
      b.request_id = some "abc") :=
  ⟨rfl, by decide,
   service_exception_response (Request.mk (some "abc") "/api/v1/items") 7 0
     (ServiceException.init ErrorCode.FORBIDDEN none 403 none)
     "no such item" "abc" rfl (by decide)⟩

/-- C8: a GET request to `/api/v1/health` is routed to the health handler and
returns HTTP 200 with a Success Envelope whose `result` is `"SUCCESS"` and
whose `data` is `{"status": "healthy"}`, and the response carries a
non-empty `X-Request-ID` header. -/
theorem health_endpoint_response (r : Request) (seed : Nat) (now : Int)
    (hp : r.path = healthRoutePath) :
    routeGet r.path = some (.ok 200 health_check) ∧
    (appHandle r (.ok 200 health_check) seed now).status_code = 200 ∧
    (appHandle r (.ok 200 health_check) seed now).body = .success
      { result := "SUCCESS"
        data := some [("status", "healthy")]
        message := some "서버가 정상 작동 중입니다" } ∧
    ∃ rid, (appHandle r (.ok 200 health_check) seed now).headers.lookup "X-Request-ID"
        = some rid ∧ rid ≠ "" := by
  refine ⟨by simp [routeGet, hp], rfl, rfl, ?_⟩
  exact ⟨RequestIDMiddleware.resolveId r.requestIdHeader seed, rfl,
    resolveId_ne_empty r.requestIdHeader seed⟩

/-- Witness for C8 at a concrete request. -/
theorem health_endpoint_response_witness :
    (Request.mk none "/api/v1/health").path = healthRoutePath ∧
    (routeGet (Request.mk none "/api/v1/health").path = some (.ok 200 health_check) ∧
     (appHandle (Request.mk none "/api/v1/health") (.ok 200 health_check) 3 5).status_code = 200 ∧
     (appHandle (Request.mk none "/api/v1/health") (.ok 200 health_check) 3 5).body = .success
      { result := "SUCCESS"
        data := some [("status", "healthy")]
        message := some "서버가 정상 작동 중입니다" } ∧
     ∃ rid, (appHandle (Request.mk none "/api/v1/health")
        (.ok 200 health_check) 3 5).headers.lookup "X-Request-ID" = some rid ∧ rid ≠ "") :=
  ⟨rfl, health_endpoint_response (Request.mk none "/api/v1/health") 3 5 rfl⟩

end Boiler

namespace Boiler

/-- C5: creating an entity whose identity is new to the unit of work and then
fetching by the returned entity's id, within the same unit of work, returns
the entity itself. -/
theorem create_get_by_id_roundtrip (s : DbSession) (e : Entity)
    (hfresh : ∀ r ∈ s.rows, r.id ≠ e.id) :
    BaseRepository.get_by_id (BaseRepository.create s e).2 (BaseRepository.create s e).1.id
      = some e := by
  have hany : (s.rows.any fun r => r.id = e.id) = false := by
    rw [List.any_eq_false]
    intro r hr
    simp [hfresh r hr]
  have hfilter : s.rows.filter (fun r => r.id = e.id) = [] := by
    rw [List.filter_eq_nil_iff]
    intro r hr
    simp [hfresh r hr]
  simp [BaseRepository.get_by_id, BaseRepository.create, DbSession.addFlush, hany,
    List.filter_append, hfilter]

/-- Witness for C5 at concrete inputs. -/
theorem create_get_by_id_roundtrip_witness :
    (∀ r ∈ (DbSession.mk (DbModel.mk ["name"]) [Entity.mk 1 [("name", 5)]]).rows,
        r.id ≠ (Entity.mk 2 [("name", 7)]).id) ∧
    BaseRepository.get_by_id
      (BaseRepository.create (DbSession.mk (DbModel.mk ["name"]) [Entity.mk 1 [("name", 5)]])
        (Entity.mk 2 [("name", 7)])).2
      (BaseRepository.create (DbSession.mk (DbModel.mk ["name"]) [Entity.mk 1 [("name", 5)]])
        (Entity.mk 2 [("name", 7)])).1.id
      = some (Entity.mk 2 [("name", 7)]) :=
  ⟨by decide,
   create_get_by_id_roundtrip
     (DbSession.mk (DbModel.mk ["name"]) [Entity.mk 1 [("name", 5)]])
     (Entity.mk 2 [("name", 7)]) (by decide)⟩

/-- C6: for `skip ≥ 0` and `limit > 0`, `get_all skip limit` returns at most
`limit` entities, and (rows being pairwise distinct, as primary-keyed rows
are) none of them is among the first `skip` rows of the engine's default
order. -/
theorem get_all_at_most_limit_none_skipped (s : DbSession) (skip limit : Nat)
    (hnodup : s.rows.Nodup) (_hlim : 0 < limit) :
    (BaseRepository.get_all s skip limit).length ≤ limit ∧
    ∀ x ∈ BaseRepository.get_all s skip limit, x ∉ s.rows.take skip := by
  constructor
  · simp [BaseRepository.get_all]
  · intro x hx hmem
    have hx' : x ∈ s.rows.drop skip := List.mem_of_mem_take hx
    exact List.disjoint_take_drop hnodup (le_refl skip) hmem hx'

/-- Witness for C6 at concrete inputs. -/
theorem get_all_at_most_limit_none_skipped_witness :
    (DbSession.mk (DbModel.mk ["name"])
      [Entity.mk 1 [], Entity.mk 2 [], Entity.mk 3 []]).rows.Nodup ∧
    0 < 2 ∧
    ((BaseRepository.get_all (DbSession.mk (DbModel.mk ["name"])
        [Entity.mk 1 [], Entity.mk 2 [], Entity.mk 3 []]) 1 2).length ≤ 2 ∧
     ∀ x ∈ BaseRepository.get_all (DbSession.mk (DbModel.mk ["name"])
        [Entity.mk 1 [], Entity.mk 2 [], Entity.mk 3 []]) 1 2,
       x ∉ (DbSession.mk (DbModel.mk ["name"])
        [Entity.mk 1 [], Entity.mk 2 [], Entity.mk 3 []]).rows.take 1) :=
  ⟨by decide, by decide,
   get_all_at_most_limit_none_skipped
     (DbSession.mk (DbModel.mk ["name"]) [Entity.mk 1 [], Entity.mk 2 [], Entity.mk 3 []])
     1 2 (by decide) (by decide)⟩

/-- C7: `filter_by` with empty criteria returns exactly the rows that
`get_all` with skip 0 and a limit at least the row count (no effective upper
bound) returns — empty criteria matches every entity. -/
theorem filter_by_empty_matches_everything (s : DbSession) (limit : Nat)
    (hl : s.rows.length ≤ limit) :
    BaseRepository.filter_by s [] = .ok (BaseRepository.get_all s 0 limit) := by
  simp [BaseRepository.filter_by, applyFilterBy, matchesCriteria,
    BaseRepository.get_all, List.take_of_length_le hl]

/-- Witness for C7 at concrete inputs. -/
theorem filter_by_empty_matches_everything_witness :
    (DbSession.mk (DbModel.mk ["name"])
      [Entity.mk 1 [("name", 5)], Entity.mk 2 [("name", 3)]]).rows.length ≤ 100 ∧
    BaseRepository.filter_by (DbSession.mk (DbModel.mk ["name"])
      [Entity.mk 1 [("name", 5)], Entity.mk 2 [("name", 3)]]) []
      = .ok (BaseRepository.get_all (DbSession.mk (DbModel.mk ["name"])
          [Entity.mk 1 [("name", 5)], Entity.mk 2 [("name", 3)]]) 0 100) :=
  ⟨by decide,
   filter_by_empty_matches_everything
     (DbSession.mk (DbModel.mk ["name"]) [Entity.mk 1 [("name", 5)], Entity.mk 2 [("name", 3)]])
     100 (by decide)⟩

end Boiler

namespace Boiler

/-- C3: in both repository variants, `order_by` on a field name that does not
exist on the entity type returns the empty sequence (never an error, for any
direction argument); on an existing field it returns all entities (a
permutation of the rows) sorted by that field — descending when the
direction is `"desc"`, ascending otherwise. -/
theorem order_by_missing_and_sorted (s : DbSession) (c dir : String) :
    (s.model.hasColumn c = false →
      BaseRepository.order_by s c dir = [] ∧ AsyncBaseRepository.order_by s c dir = []) ∧
    (s.model.hasColumn c = true →
      AsyncBaseRepository.order_by s c dir = BaseRepository.order_by s c dir ∧
      (BaseRepository.order_by s c dir).Perm s.rows ∧
      (dir = "desc" →
        (BaseRepository.order_by s c dir).Pairwise
          (fun a b => ((b.fieldVal c).getD 0) ≤ ((a.fieldVal c).getD 0))) ∧
      (dir ≠ "desc" →
        (BaseRepository.order_by s c dir).Pairwise
          (fun a b => ((a.fieldVal c).getD 0) ≤ ((b.fieldVal c).getD 0)))) := by
  constructor
  · intro hmiss
    constructor <;>
      simp [BaseRepository.order_by, AsyncBaseRepository.order_by, hmiss]
  · intro hhit
    have hb : BaseRepository.order_by s c dir =
        (if dir = "desc" then
          s.rows.mergeSort (fun a b => ((b.fieldVal c).getD 0) ≤ ((a.fieldVal c).getD 0))
        else
          s.rows.mergeSort (fun a b => ((a.fieldVal c).getD 0) ≤ ((b.fieldVal c).getD 0))) := by
      simp [BaseRepository.order_by, hhit]
    refine ⟨rfl, ?_, ?_, ?_⟩
    · rw [hb]
      by_cases hdir : dir = "desc"
      · simpa [hdir] using List.mergeSort_perm s.rows _
      · simpa [hdir] using List.mergeSort_perm s.rows _
    · intro hdir
      rw [hb]
      simp only [hdir, if_true, if_pos]
      have h := @List.sorted_mergeSort Entity
          (fun a b => decide (((b.fieldVal c).getD 0) ≤ ((a.fieldVal c).getD 0)))
          (fun a b e h1 h2 => by
            simp only [decide_eq_true_eq] at h1 h2 ⊢
            omega)
          (fun a b => by
            simp only [Bool.or_eq_true, decide_eq_true_eq]
            omega)
          s.rows
      exact h.imp (fun hab => by simpa using hab)
    · intro hdir
      rw [hb]
      simp only [hdir, if_false, if_neg, reduceIte]
      have h := @List.sorted_mergeSort Entity
          (fun a b => decide (((a.fieldVal c).getD 0) ≤ ((b.fieldVal c).getD 0)))
          (fun a b e h1 h2 => by
            simp only [decide_eq_true_eq] at h1 h2 ⊢
            omega)
          (fun a b => by
            simp only [Bool.or_eq_true, decide_eq_true_eq]
            omega)
          s.rows
      exact h.imp (fun hab => by simpa using hab)

/-- Witness for C3 at concrete inputs: a model with the single mapped column
`"name"`, a missing column `"nope"`, and the default direction `"desc"`. -/
theorem order_by_missing_and_sorted_witness :
    (BaseRepository.order_by
        (DbSession.mk (DbModel.mk ["name"])
          [Entity.mk 1 [("name", 3)], Entity.mk 2 [("name", 5)]]) "nope" "desc" = [] ∧
     AsyncBaseRepository.order_by
        (DbSession.mk (DbModel.mk ["name"])
          [Entity.mk 1 [("name", 3)], Entity.mk 2 [("name", 5)]]) "nope" "desc" = []) ∧
    (BaseRepository.order_by
        (DbSession.mk (DbModel.mk ["name"])
          [Entity.mk 1 [("name", 3)], Entity.mk 2 [("name", 5)]]) "name" "desc").Perm
      (DbSession.mk (DbModel.mk ["name"])
          [Entity.mk 1 [("name", 3)], Entity.mk 2 [("name", 5)]]).rows ∧
    (BaseRepository.order_by
        (DbSession.mk (DbModel.mk ["name"])
          [Entity.mk 1 [("name", 3)], Entity.mk 2 [("name", 5)]]) "name" "desc").Pairwise
      (fun a b => ((b.fieldVal "name").getD 0) ≤ ((a.fieldVal "name").getD 0)) :=
  ⟨(order_by_missing_and_sorted
      (DbSession.mk (DbModel.mk ["name"])
        [Entity.mk 1 [("name", 3)], Entity.mk 2 [("name", 5)]]) "nope" "desc").1 (by decide),
   ((order_by_missing_and_sorted
      (DbSession.mk (DbModel.mk ["name"])
        [Entity.mk 1 [("name", 3)], Entity.mk 2 [("name", 5)]]) "name" "desc").2
      (by decide)).2.1,
   (((order_by_missing_and_sorted
      (DbSession.mk (DbModel.mk ["name"])
        [Entity.mk 1 [("name", 3)], Entity.mk 2 [("name", 5)]]) "name" "desc").2
      (by decide)).2.2.1 rfl)⟩

end Boiler
